import Mathlib

/-!
Verification of the notification-system delivery service core.

Shallow embedding of `delivery-service/internal/handlers/simulators.go`,
the generic delivery handler (`processMessage`, `Start`, `Close`), the
MongoDB outcome store call and the Kafka completion publisher call, as
Lean definitions.  Randomness (`rand.Intn`, `rand.Float32`) is made
explicit by passing the drawn samples as parameters; external effects
(JSON decoding, MongoDB insert, Kafka write/commit, the wall clock) are
made explicit by passing their per-call results in an environment
record.  Go's `int`/`int64` are modelled as `Int`, `float32` as `ℚ`,
byte slices as `String`.
-/

namespace NotificationSystem

/-- Embeds `models.Notification` (delivery-service/internal/models/notification.go).
The Go field `Type` is named `type_` here to avoid a near-keyword. -/
structure Notification where
  id : String
  type_ : String
  recipient : String
  message : String
  subject : String
  deriving DecidableEq, Repr

/-- Embeds `models.DeliveryResult` (delivery-service/internal/models/notification.go).
`Timestamp` (Go `time.Time`, set to `time.Now()` at processing time) is
modelled as a `Nat` tick supplied by the environment. -/
structure DeliveryResult where
  notificationID : String
  type_ : String
  recipient : String
  status : String
  timestamp : Nat
  deliveryTimeMs : Int
  errorMessage : String
  deriving DecidableEq, Repr

/-- Embeds `handlers.DeliveryConfig` (simulators.go). `FailureRate` is a Go
`float32`, modelled as a rational. -/
structure DeliveryConfig where
  name : String
  minDelayMs : Int
  maxDelayMs : Int
  failureRate : ℚ
  errorMessage : String
  successEmoji : String
  deriving DecidableEq, Repr

/-- The rational 1/10 (the `0.10` failure rate in simulators.go), given in
lowest terms so that kernel reduction of comparisons goes through. -/
def rateTenth : ℚ := Rat.mk' 1 10 (by norm_num) (Nat.coprime_one_left 10)

/-- The rational 1/2, a convenient concrete `rand.Float32` sample. -/
def rateHalf : ℚ := Rat.mk' 1 2 (by norm_num) (Nat.coprime_one_left 2)

/-- Config `emailConfig` from simulators.go. -/
def emailConfig : DeliveryConfig :=
  { name := "Email"
    minDelayMs := 50
    maxDelayMs := 200
    failureRate := rateTenth
    errorMessage := "SMTP connection timeout"
    successEmoji := "email" }

/-- Config `smsConfig` from simulators.go. -/
def smsConfig : DeliveryConfig :=
  { name := "SMS"
    minDelayMs := 30
    maxDelayMs := 100
    failureRate := rateTenth
    errorMessage := "carrier gateway unreachable"
    successEmoji := "sms" }

/-- Config `pushConfig` from simulators.go. -/
def pushConfig : DeliveryConfig :=
  { name := "Push"
    minDelayMs := 20
    maxDelayMs := 80
    failureRate := rateTenth
    errorMessage := "device token invalid"
    successEmoji := "push" }

/-- Go's `rand.Intn n`: a uniform draw from 0 to n-1 inclusive, and a
panic when `n ≤ 0`.  The draw is made explicit: `sample` is the random
source and the returned value is its residue modulo `n`, so that over one
period `sample ∈ [0, n)` every result is produced by exactly one sample.
The panic branch is `none`. -/
def randIntn (n : Int) (sample : Nat) : Option Int :=
  if n ≤ 0 then none
  else some ((sample % n.toNat : Nat) : Int)

/-- Embeds `simulateDelivery` (simulators.go lines 52-70).
`rDelay` is the sample consumed by `rand.Intn(delayRange)`, `rFail` the
value drawn by `rand.Float32()` (uniform on `[0,1)`).  The Go function
sleeps for `MinDelayMs + rand.Intn(MaxDelayMs - MinDelayMs)` milliseconds
and reports `deliveryTime := time.Since(startTime).Milliseconds()`; the
embedding equates measured elapsed time with the slept delay (no
scheduler jitter in the model).  The result triple is
`(status, deliveryTimeMs, error)` with the Go `error` as `Option String`;
`none` for the whole result is the `rand.Intn` panic on an empty range. -/
def simulateDelivery (_notification : Notification) (config : DeliveryConfig)
    (rDelay : Nat) (rFail : ℚ) : Option (String × Int × Option String) :=
  match randIntn (config.maxDelayMs - config.minDelayMs) rDelay with
  | none => none
  | some d =>
    let delay := config.minDelayMs + d
    let deliveryTime := delay
    if rFail < config.failureRate then
      some ("FAILED", deliveryTime, some config.errorMessage)
    else
      some ("SENT", deliveryTime, none)

/-- The delay drawn by `simulateDelivery`'s step 1 (the value slept and, in
the model, reported as `deliveryTime`), as a function of the `rand.Intn`
sample. -/
def delayOf (config : DeliveryConfig) (rDelay : Nat) : Option Int :=
  (randIntn (config.maxDelayMs - config.minDelayMs) rDelay).map
    (fun d => config.minDelayMs + d)

/-- A Kafka message as seen by the handler: key and value byte slices,
modelled as strings. -/
structure KafkaMessage where
  key : String
  value : String
  deriving DecidableEq, Repr

/-- One external call made by `processMessage`, with the outcome the
environment gave it:
`saveResult r ok` records `h.mongoClient.SaveDeliveryResult(ctx, r)`
returning nil (`ok = true`) or an error; `writeMessage k v r ok` records
`h.producer.WriteMessages` with Kafka key `k` and value `v`, where
`v` is the serialization of the `DeliveryResult` `r` (the record is kept
alongside the bytes so that statements can speak about it). -/
inductive Call where
  | saveResult (r : DeliveryResult) (ok : Bool)
  | writeMessage (key : String) (value : String) (r : DeliveryResult) (ok : Bool)
  deriving DecidableEq, Repr

/-- Whether a call is the MongoDB save. -/
def Call.isSave : Call → Bool
  | .saveResult _ _ => true
  | .writeMessage _ _ _ _ => false

/-- Whether a call is the Kafka completion-event write. -/
def Call.isPublish : Call → Bool
  | .saveResult _ _ => false
  | .writeMessage _ _ _ _ => true

/-- Per-message environment for `processMessage`: the results the external
world returns to each call the handler makes.
`decode` is `json.Unmarshal` into a `Notification` (`none` = parse error);
`simulator` is the injected `DeliverySimulator` field `h.simulator`;
`saveOk` is whether `SaveDeliveryResult` returns nil; `marshal` is
`json.Marshal` of the `DeliveryResult` (`none` = marshal error);
`publishOk` is whether `WriteMessages` returns nil; `now` is the
`time.Now()` tick observed while building the result. -/
structure ProcEnv where
  decode : String → Option Notification
  simulator : Notification → String × Int × Option String
  saveOk : Bool
  marshal : DeliveryResult → Option String
  publishOk : Bool
  now : Nat

/-- The `DeliveryResult` literal that `processMessage` builds (handler
file, lines 74-90): simulator output fields plus the fields copied from
the notification, `errorMessage` being the simulator error's text and
empty when that error is nil. -/
def mkDeliveryResult (env : ProcEnv) (notification : Notification) : DeliveryResult :=
  let simRes := env.simulator notification
  { notificationID := notification.id
    type_ := notification.type_
    recipient := notification.recipient
    status := simRes.1
    timestamp := env.now
    deliveryTimeMs := simRes.2.1
    errorMessage :=
      match simRes.2.2 with
      | some e => e
      | none => "" }

/-- Embeds `(*Handler).processMessage` (handler file, lines 65-116).
Returns the ordered list of external calls made and whether the Go
function returned a non-nil error.  Mirrors the source exactly: a decode
failure returns early with no calls; the `DeliveryResult` is built once;
a save failure RETURNS the error (no marshal, no publish); a marshal
failure returns after the save; a publish failure returns the error;
otherwise nil is returned. -/
def processMessage (env : ProcEnv) (message : KafkaMessage) : List Call × Bool :=
  match env.decode message.value with
  | none => ([], true)
  | some notification =>
    let deliveryResult := mkDeliveryResult env notification
    if env.saveOk then
      match env.marshal deliveryResult with
      | none => ([Call.saveResult deliveryResult true], true)
      | some eventBytes =>
        if env.publishOk then
          ([Call.saveResult deliveryResult true,
            Call.writeMessage notification.id eventBytes deliveryResult true], false)
        else
          ([Call.saveResult deliveryResult true,
            Call.writeMessage notification.id eventBytes deliveryResult false], true)
    else
      ([Call.saveResult deliveryResult false], true)

/-- The worker's per-channel consumer state: the committed read position
(number of messages acknowledged via `CommitMessages`). -/
structure WorkerState where
  committed : Nat
  deriving DecidableEq, Repr

/-- Result of `h.consumer.FetchMessage(ctx)` in one iteration: an error
(transport failure or cancelled context) or a message. -/
inductive FetchResult where
  | failure
  | success (message : KafkaMessage)
  deriving DecidableEq, Repr

/-- The external world's behaviour during one iteration of `Start`'s loop:
whether `h.shutdownChan` is already closed when the `select` runs,
what `FetchMessage` returns, the per-call results for `processMessage`,
and whether `CommitMessages` returns nil. -/
structure IterInput where
  shutdownNow : Bool
  fetch : FetchResult
  penv : ProcEnv
  commitOk : Bool

/-- Observable event of the worker loop, in program order. -/
inductive WEvent where
  | stopped
  | fetchError
  | fetched (message : KafkaMessage)
  | call (c : Call)
  | commitCall (ok : Bool)
  deriving DecidableEq, Repr

/-- Embeds one iteration of `(*Handler).Start`'s `for` loop (handler file,
lines 122-145).  The `select` observes `h.shutdownChan` first: if closed,
the function returns nil (event `stopped`).  Otherwise `FetchMessage`
runs; on error the iteration ends (`continue`) with no commit.  On a
fetched message, `processMessage` runs to completion (its error is only
logged) and then `CommitMessages` is invoked unconditionally; the
committed position advances exactly when that commit call returns nil
(its error too is only logged).  Returns the state after the iteration,
whether `Start` returned, and the iteration's events. -/
def startIteration (st : WorkerState) (inp : IterInput) :
    WorkerState × Bool × List WEvent :=
  if inp.shutdownNow then
    (st, true, [WEvent.stopped])
  else
    match inp.fetch with
    | FetchResult.failure => (st, false, [WEvent.fetchError])
    | FetchResult.success message =>
      let pr := processMessage inp.penv message
      let st' : WorkerState :=
        if inp.commitOk then { committed := st.committed + 1 } else st
      (st', false,
        WEvent.fetched message :: pr.1.map WEvent.call ++ [WEvent.commitCall inp.commitOk])

/-- Runs `Start`'s loop over a finite schedule of iteration inputs (a
finite prefix of the infinite loop).  Stops early exactly when an
iteration makes `Start` return.  Yields the final state, whether `Start`
returned within the schedule, and the concatenated event trace. -/
def startRun (st : WorkerState) (inputs : List IterInput) :
    WorkerState × Bool × List WEvent :=
  match inputs with
  | [] => (st, false, [])
  | inp :: rest =>
    let step := startIteration st inp
    if step.2.1 then
      (step.1, true, step.2.2)
    else
      let r := startRun step.1 rest
      (r.1, r.2.1, step.2.2 ++ r.2.2)

/-- The handler's closable resources: `h.shutdownChan` (a Go channel,
which panics when closed twice), and the Kafka consumer and producer. -/
structure HandlerState where
  shutdownClosed : Bool
  consumerClosed : Bool
  producerClosed : Bool
  deriving DecidableEq, Repr

/-- Go's `close(ch)` on a channel whose closed-flag is given: panics
(`none`) when the channel is already closed. -/
def closeChan (alreadyClosed : Bool) : Option Unit :=
  if alreadyClosed then none else some ()

/-- Embeds `(*Handler).Close` (handler file, lines 149-162): closes
`h.shutdownChan` (panicking if already closed, = `none`), then closes the
consumer and producer (their errors are only logged) and returns nil.
The nil return is the `Option String` component `none` of the `some`
result. -/
def HandlerState.Close (h : HandlerState) : Option (HandlerState × Option String) :=
  match closeChan h.shutdownClosed with
  | none => none
  | some _ =>
    some ({ shutdownClosed := true, consumerClosed := true, producerClosed := true }, none)

/-! Concrete fixtures, used to instantiate hypotheses and to exhibit
counterexamples. -/

/-- The spec's concrete EMAIL notification (§8 scenario). -/
def n0 : Notification :=
  { id := "n1", type_ := "EMAIL", recipient := "a@b.com", message := "hi", subject := "" }

/-- A concrete JSON decoder: the payload `"good"` parses to `n0`, anything
else is malformed. -/
def decode0 : String → Option Notification :=
  fun s => if s = "good" then some n0 else none

/-- A concrete, always-succeeding serializer for delivery events. -/
def marshal0 : DeliveryResult → Option String :=
  fun r => some (r.notificationID ++ ":" ++ r.status)

/-- A concrete simulator result: SENT after 60 ms, no error. -/
def simulator0 : Notification → String × Int × Option String :=
  fun _ => ("SENT", 60, none)

/-- A concrete per-message environment with selectable save/publish
outcomes. -/
def env0 (saveOk publishOk : Bool) : ProcEnv :=
  { decode := decode0
    simulator := simulator0
    saveOk := saveOk
    marshal := marshal0
    publishOk := publishOk
    now := 0 }

/-- A well-formed input message. -/
def msg0 : KafkaMessage := { key := "k", value := "good" }

/-- A malformed input message. -/
def badMsg : KafkaMessage := { key := "k", value := "mangled" }

/-- The `DeliveryResult` that `processMessage` builds from `n0` under
`simulator0` at tick 0. -/
def r0 : DeliveryResult :=
  { notificationID := "n1", type_ := "EMAIL", recipient := "a@b.com", status := "SENT"
    timestamp := 0, deliveryTimeMs := 60, errorMessage := "" }

/-- The environment of an iteration whose in-flight external calls all
fail — exactly what an in-flight iteration sees after `main` has executed
`cancel()` on the shared context during shutdown (part of the code's own
shutdown path: `cancel()` runs before `handler.Close()`), since
`SaveDeliveryResult(ctx, …)`, `WriteMessages(ctx, …)` and
`CommitMessages(ctx, …)` all receive the cancelled context. -/
def cancelledEnv : ProcEnv :=
  { decode := decode0
    simulator := simulator0
    saveOk := false
    marshal := marshal0
    publishOk := false
    now := 0 }

/-- A two-iteration schedule: the shutdown signal arrives while `msg0` is
mid-processing (the first iteration's select saw the channel still open),
the in-flight iteration's save and commit calls fail under the cancelled
context, and the next select observes the closed shutdown channel. -/
def shutdownSchedule : List IterInput :=
  [ { shutdownNow := false, fetch := FetchResult.success msg0
      penv := cancelledEnv, commitOk := false },
    { shutdownNow := true, fetch := FetchResult.failure
      penv := cancelledEnv, commitOk := true } ]

/-- A degenerate channel policy with `MaxDelayMs = MinDelayMs`. -/
def degenerateConfig : DeliveryConfig :=
  { name := "Degenerate", minDelayMs := 50, maxDelayMs := 50, failureRate := 0
    errorMessage := "err", successEmoji := "x" }

/-- The simulator output of `simulateDelivery` under the email policy with
delay sample 0 and failure sample 1/2: SENT after 50 ms, nil error. -/
def simulator1 : Notification → String × Int × Option String :=
  fun _ => ("SENT", 50, none)

/-- A per-message environment whose simulator is the concrete email-policy
run `simulator1` and whose save and publish both succeed. -/
def env1 : ProcEnv :=
  { decode := decode0
    simulator := simulator1
    saveOk := true
    marshal := marshal0
    publishOk := true
    now := 0 }

end NotificationSystem

/-! ## Theorems -/

namespace NotificationSystem

/-- Helper: `Start` returns during an iteration exactly when the select
observed the closed shutdown channel. -/
theorem startIteration_returned_shutdown (st : WorkerState) (inp : IterInput) :
    (startIteration st inp).2.1 = true ↔ inp.shutdownNow = true := by
  unfold startIteration
  rcases h : inp.shutdownNow with _ | _
  · simp only [h, Bool.false_eq_true, if_false]
    cases hf : inp.fetch <;> simp
  · simp

/-- C10: after one completed call to `Close`, a second call reaches the
panic branch of closing the already-closed shutdown channel and does not
return; the first call alone closes the consumer and producer and returns
nil. -/
theorem Close_not_idempotent (h : HandlerState) (hopen : h.shutdownClosed = false) :
    ∃ h', HandlerState.Close h = some (h', none) ∧
      h'.shutdownClosed = true ∧ h'.consumerClosed = true ∧ h'.producerClosed = true ∧
      HandlerState.Close h' = none := by
  refine ⟨{ shutdownClosed := true, consumerClosed := true, producerClosed := true }, ?_⟩
  simp [HandlerState.Close, closeChan, hopen]

/-- Witness for C10 at a freshly constructed handler. -/
theorem Close_not_idempotent_witness :
    ∃ h', HandlerState.Close ⟨false, false, false⟩ = some (h', none) ∧
      h'.shutdownClosed = true ∧ h'.consumerClosed = true ∧ h'.producerClosed = true ∧
      HandlerState.Close h' = none :=
  Close_not_idempotent ⟨false, false, false⟩ rfl

/-- C9: `simulateDelivery` returns a result for every configuration with
`MaxDelayMs > MinDelayMs`, whereas with `MaxDelayMs = MinDelayMs` the
bounded random draw `rand.Intn(MaxDelayMs - MinDelayMs)` hits its error
branch (non-positive argument) and no result is returned. -/
theorem simulateDelivery_total_iff_range (notification : Notification)
    (config : DeliveryConfig) (rDelay : Nat) (rFail : ℚ) :
    (config.minDelayMs < config.maxDelayMs →
      (simulateDelivery notification config rDelay rFail).isSome = true) ∧
    (config.maxDelayMs = config.minDelayMs →
      simulateDelivery notification config rDelay rFail = none) := by
  constructor
  · intro hlt
    have hpos : ¬ (config.maxDelayMs - config.minDelayMs ≤ 0) := by omega
    unfold simulateDelivery randIntn
    simp only [hpos, if_false]
    rcases lt_or_le rFail config.failureRate with hc | hc
    · simp [hc]
    · simp [not_lt.mpr hc]
  · intro heq
    have hz : config.maxDelayMs - config.minDelayMs ≤ 0 := by omega
    unfold simulateDelivery randIntn
    simp [hz]

/-- Witness for C9: the email policy has a positive range, and a policy
with equal bounds reaches the non-returning branch. -/
theorem simulateDelivery_total_iff_range_witness :
    (simulateDelivery n0 emailConfig 0 0).isSome = true ∧
    simulateDelivery n0 degenerateConfig 0 0 = none :=
  ⟨(simulateDelivery_total_iff_range n0 emailConfig 0 0).1 (by decide),
   (simulateDelivery_total_iff_range n0 degenerateConfig 0 0).2 rfl⟩

/-- C1, counterexample: at a successfully deserialized notification whose
save fails, `processMessage` makes no publish call at all — the claim that
the Completion Publisher is still invoked is false on the code, which
returns the save error before reaching the producer. -/
theorem processMessage_save_failure_skips_publish_cex :
    (env0 false true).decode msg0.value = some n0 ∧
    (env0 false true).saveOk = false ∧
    processMessage (env0 false true) msg0 = ([Call.saveResult r0 false], true) ∧
    (processMessage (env0 false true) msg0).1.countP Call.isPublish = 0 := by
  decide

/-- C1, amended: when the Outcome Store save fails for a successfully
deserialized Notification, `processMessage` returns the error without
invoking the Completion Publisher — persistence failure blocks
publication; only the commit is unaffected (the worker still advances its
committed position past the message). -/
theorem processMessage_save_failure_no_publish (env : ProcEnv)
    (message : KafkaMessage) (notification : Notification)
    (hdec : env.decode message.value = some notification)
    (hsave : env.saveOk = false) :
    (processMessage env message).2 = true ∧
    (∀ c ∈ (processMessage env message).1, Call.isPublish c = false) ∧
    (∃ r, (processMessage env message).1 = [Call.saveResult r false]) ∧
    (∀ st : WorkerState, ∀ inp : IterInput, inp.shutdownNow = false →
      inp.fetch = FetchResult.success message → inp.commitOk = true →
      (startIteration st inp).1.committed = st.committed + 1) := by
  have hpm : ∃ r, processMessage env message = ([Call.saveResult r false], true) := by
    unfold processMessage
    rw [hdec]
    simp [hsave]
  obtain ⟨r, hr⟩ := hpm
  refine ⟨by rw [hr], ?_, ⟨r, by rw [hr]⟩, ?_⟩
  · intro c hc
    rw [hr] at hc
    simp only [List.mem_singleton] at hc
    subst hc
    rfl
  · intro st inp hshut hfetch hcommit
    unfold startIteration
    simp [hshut, hfetch, hcommit]

/-- Witness for C1's amended theorem at the concrete fixture. -/
theorem processMessage_save_failure_no_publish_witness :
    (processMessage (env0 false true) msg0).2 = true ∧
    (∀ c ∈ (processMessage (env0 false true) msg0).1, Call.isPublish c = false) ∧
    (∃ r, (processMessage (env0 false true) msg0).1 = [Call.saveResult r false]) ∧
    (∀ st : WorkerState, ∀ inp : IterInput, inp.shutdownNow = false →
      inp.fetch = FetchResult.success msg0 → inp.commitOk = true →
      (startIteration st inp).1.committed = st.committed + 1) :=
  processMessage_save_failure_no_publish (env0 false true) msg0 n0 (by decide) rfl

/-- C6: a message whose payload fails to deserialize produces no
`DeliveryOutcome` — no save and no publish call — yet the worker's
committed position still advances past it and the loop does not return,
so subsequent messages on the channel are still processed. -/
theorem processMessage_malformed_no_outcome_still_commits (env : ProcEnv)
    (message : KafkaMessage) (hdec : env.decode message.value = none) :
    processMessage env message = ([], true) ∧
    (∀ st : WorkerState, ∀ inp : IterInput, inp.shutdownNow = false →
      inp.fetch = FetchResult.success message → inp.penv = env → inp.commitOk = true →
      (startIteration st inp).1.committed = st.committed + 1 ∧
      (startIteration st inp).2.1 = false ∧
      (startIteration st inp).2.2 = [WEvent.fetched message, WEvent.commitCall true]) := by
  have hpm : processMessage env message = ([], true) := by
    unfold processMessage
    rw [hdec]
  refine ⟨hpm, ?_⟩
  intro st inp hshut hfetch hpenv hcommit
  unfold startIteration
  simp [hshut, hfetch, hpenv, hcommit, hpm]

/-- Witness for C6 at the concrete malformed message. -/
theorem processMessage_malformed_no_outcome_still_commits_witness :
    processMessage (env0 true true) badMsg = ([], true) ∧
    (∀ st : WorkerState, ∀ inp : IterInput, inp.shutdownNow = false →
      inp.fetch = FetchResult.success badMsg → inp.penv = env0 true true → inp.commitOk = true →
      (startIteration st inp).1.committed = st.committed + 1 ∧
      (startIteration st inp).2.1 = false ∧
      (startIteration st inp).2.2 = [WEvent.fetched badMsg, WEvent.commitCall true]) :=
  processMessage_malformed_no_outcome_still_commits (env0 true true) badMsg (by decide)

/-- C3: in every iteration that fetched a message, the `CommitMessages`
call is the single, final event of the iteration — it happens after all
of the iteration's processing, for every outcome of deserialization,
persistence and publication — and when it succeeds the committed position
advances by exactly one; the loop does not return mid-iteration. -/
theorem Start_commit_unconditional_after_processing (st : WorkerState)
    (inp : IterInput) (message : KafkaMessage)
    (hshut : inp.shutdownNow = false)
    (hfetch : inp.fetch = FetchResult.success message) :
    (∃ pre, (startIteration st inp).2.2 = pre ++ [WEvent.commitCall inp.commitOk] ∧
      ∀ b, WEvent.commitCall b ∉ pre) ∧
    (inp.commitOk = true → (startIteration st inp).1.committed = st.committed + 1) ∧
    (startIteration st inp).2.1 = false := by
  unfold startIteration
  simp only [hshut, Bool.false_eq_true, if_false, hfetch]
  refine ⟨⟨WEvent.fetched message :: (processMessage inp.penv message).1.map WEvent.call,
    by simp, ?_⟩, ?_, trivial⟩
  · intro b
    simp only [List.mem_cons, List.mem_map]
    push_neg
    exact ⟨by simp, fun c _ => by simp⟩
  · intro hc
    simp [hc]

/-- Witness for C3 at a concrete iteration. -/
theorem Start_commit_unconditional_after_processing_witness :
    (∃ pre, (startIteration ⟨0⟩
        ⟨false, FetchResult.success msg0, env0 true true, true⟩).2.2 =
        pre ++ [WEvent.commitCall true] ∧ ∀ b, WEvent.commitCall b ∉ pre) ∧
    (true = true → (startIteration ⟨0⟩
        ⟨false, FetchResult.success msg0, env0 true true, true⟩).1.committed = 0 + 1) ∧
    (startIteration ⟨0⟩ ⟨false, FetchResult.success msg0, env0 true true, true⟩).2.1 = false :=
  Start_commit_unconditional_after_processing ⟨0⟩
    ⟨false, FetchResult.success msg0, env0 true true, true⟩ msg0 rfl rfl

/-- C4, counterexample: with the shutdown signal arriving while `msg0` is
mid-processing, the in-flight iteration's save and commit calls fail
under the cancelled context (`main` runs `cancel()` before closing the
handlers), the worker then returns at the next FETCH-boundary select, and
it stops with the fetched message never committed — refuting both "the
PERSISTING/PUBLISHING/COMMITTING steps are never aborted by cancellation"
and "no message left fetched-but-uncommitted". -/
theorem Start_shutdown_uncommitted_cex :
    (startRun ⟨0⟩ shutdownSchedule).2.1 = true ∧
    WEvent.fetched msg0 ∈ (startRun ⟨0⟩ shutdownSchedule).2.2 ∧
    WEvent.call (Call.saveResult r0 false) ∈ (startRun ⟨0⟩ shutdownSchedule).2.2 ∧
    (startRun ⟨0⟩ shutdownSchedule).1.committed = 0 ∧
    WEvent.commitCall true ∉ (startRun ⟨0⟩ shutdownSchedule).2.2 := by
  decide

/-- C4, amended: the worker's control flow observes shutdown only at the
FETCH-boundary select — whenever `Start` returns, that iteration fetched
nothing and its only event is the stop — and an iteration that fetched a
message always runs to its end, its final action being the CommitMessages
invocation; however the in-flight persist/publish/commit calls may
themselves fail (the failures are only logged), e.g. under the context
cancelled by `main` before `Close`, so the commit is attempted but not
guaranteed to succeed. -/
theorem Start_stops_only_at_fetch_boundary :
    (∀ st : WorkerState, ∀ inp : IterInput, (startIteration st inp).2.1 = true →
      inp.shutdownNow = true ∧ (startIteration st inp).2.2 = [WEvent.stopped]) ∧
    (∀ st : WorkerState, ∀ inp : IterInput, ∀ message : KafkaMessage,
      inp.shutdownNow = false → inp.fetch = FetchResult.success message →
      (startIteration st inp).2.1 = false ∧
      (startIteration st inp).2.2.getLast? = some (WEvent.commitCall inp.commitOk)) := by
  constructor
  · intro st inp hret
    have hshut := (startIteration_returned_shutdown st inp).mp hret
    exact ⟨hshut, by unfold startIteration; simp [hshut]⟩
  · intro st inp message hshut hfetch
    unfold startIteration
    simp only [hshut, Bool.false_eq_true, if_false, hfetch]
    refine ⟨trivial, ?_⟩
    have : WEvent.fetched message :: (processMessage inp.penv message).1.map WEvent.call ++
        [WEvent.commitCall inp.commitOk] =
        (WEvent.fetched message :: (processMessage inp.penv message).1.map WEvent.call) ++
        [WEvent.commitCall inp.commitOk] := by simp
    rw [this, List.getLast?_concat]

/-- Witness for C4's amended theorem at concrete iterations. -/
theorem Start_stops_only_at_fetch_boundary_witness :
    (true = true ∧
      (startIteration ⟨0⟩
        ⟨true, FetchResult.failure, env0 true true, true⟩).2.2 = [WEvent.stopped]) ∧
    ((startIteration ⟨0⟩
        ⟨false, FetchResult.success msg0, env0 true true, false⟩).2.1 = false ∧
      (startIteration ⟨0⟩
        ⟨false, FetchResult.success msg0, env0 true true, false⟩).2.2.getLast? =
        some (WEvent.commitCall false)) :=
  ⟨Start_stops_only_at_fetch_boundary.1 ⟨0⟩
    ⟨true, FetchResult.failure, env0 true true, true⟩ rfl,
   Start_stops_only_at_fetch_boundary.2 ⟨0⟩
    ⟨false, FetchResult.success msg0, env0 true true, false⟩ msg0 rfl rfl⟩

/-- C8: fetch failure never terminates the loop and never moves the
committed position — the iteration leaves the worker state unchanged and
retries — and `Start` returns only in response to the shutdown signal:
whenever a run of the loop returns, some iteration observed the closed
shutdown channel. -/
theorem Start_loop_survives_failures :
    (∀ st : WorkerState, ∀ inp : IterInput, inp.shutdownNow = false →
      inp.fetch = FetchResult.failure →
      startIteration st inp = (st, false, [WEvent.fetchError])) ∧
    (∀ inputs : List IterInput, ∀ st : WorkerState, (startRun st inputs).2.1 = true →
      ∃ inp ∈ inputs, inp.shutdownNow = true) := by
  constructor
  · intro st inp hshut hfetch
    unfold startIteration
    simp [hshut, hfetch]
  · intro inputs
    induction inputs with
    | nil => intro st h; simp [startRun] at h
    | cons inp rest ih =>
      intro st h
      rw [startRun] at h
      by_cases hs : (startIteration st inp).2.1 = true
      · exact ⟨inp, List.mem_cons_self _ _, (startIteration_returned_shutdown st inp).mp hs⟩
      · simp only [hs, if_false] at h
        obtain ⟨i, hi, hsd⟩ := ih _ h
        exact ⟨i, List.mem_cons_of_mem _ hi, hsd⟩

/-- Witness for C8 at a concrete failing fetch and a concrete stopped run. -/
theorem Start_loop_survives_failures_witness :
    startIteration ⟨3⟩ ⟨false, FetchResult.failure, env0 true true, true⟩ =
      (⟨3⟩, false, [WEvent.fetchError]) ∧
    ∃ inp ∈ shutdownSchedule, inp.shutdownNow = true :=
  ⟨Start_loop_survives_failures.1 ⟨3⟩
    ⟨false, FetchResult.failure, env0 true true, true⟩ rfl rfl,
   Start_loop_survives_failures.2 shutdownSchedule ⟨0⟩ (by decide)⟩

/-- C7: whenever `processMessage` emits a completion event, the Kafka
message key is the notification's id, the payload is the serialization of
a `DeliveryResult` whose `notification_id` is that same id, and that very
record is the one that was passed to the Outcome Store's save. -/
theorem processMessage_publish_key_and_record (env : ProcEnv) (message : KafkaMessage)
    (k v : String) (r : DeliveryResult) (ok : Bool)
    (hpub : Call.writeMessage k v r ok ∈ (processMessage env message).1) :
    ∃ notification, env.decode message.value = some notification ∧
      k = notification.id ∧ r.notificationID = notification.id ∧
      env.marshal r = some v ∧
      Call.saveResult r true ∈ (processMessage env message).1 := by
  rcases hdec : env.decode message.value with _ | n
  · have hpm : processMessage env message = ([], true) := by
      unfold processMessage
      rw [hdec]
    rw [hpm] at hpub
    simp at hpub
  · by_cases hsave : env.saveOk
    · rcases hmar : env.marshal (mkDeliveryResult env n) with _ | bytes
      · have hpm : processMessage env message =
            ([Call.saveResult (mkDeliveryResult env n) true], true) := by
          unfold processMessage
          rw [hdec]
          simp [hsave, hmar]
        rw [hpm] at hpub
        simp at hpub
      · by_cases hpok : env.publishOk
        · have hpm : processMessage env message =
              ([Call.saveResult (mkDeliveryResult env n) true,
                Call.writeMessage n.id bytes (mkDeliveryResult env n) true], false) := by
            unfold processMessage
            rw [hdec]
            simp [hsave, hmar, hpok]
          rw [hpm] at hpub
          simp only [List.mem_cons, List.not_mem_nil, or_false, reduceCtorEq, false_or,
            Call.writeMessage.injEq] at hpub
          obtain ⟨hk, hv, hr, _⟩ := hpub
          subst hk hv hr
          refine ⟨n, rfl, rfl, rfl, hmar, ?_⟩
          rw [hpm]
          exact List.mem_cons_self _ _
        · have hpm : processMessage env message =
              ([Call.saveResult (mkDeliveryResult env n) true,
                Call.writeMessage n.id bytes (mkDeliveryResult env n) false], true) := by
            unfold processMessage
            rw [hdec]
            simp [hsave, hmar, hpok]
          rw [hpm] at hpub
          simp only [List.mem_cons, List.not_mem_nil, or_false, reduceCtorEq, false_or,
            Call.writeMessage.injEq] at hpub
          obtain ⟨hk, hv, hr, _⟩ := hpub
          subst hk hv hr
          refine ⟨n, rfl, rfl, rfl, hmar, ?_⟩
          rw [hpm]
          exact List.mem_cons_self _ _
    · have hpm : processMessage env message =
          ([Call.saveResult (mkDeliveryResult env n) false], true) := by
        unfold processMessage
        rw [hdec]
        simp [hsave]
      rw [hpm] at hpub
      simp at hpub

/-- Witness for C7 at a concrete successful publication. -/
theorem processMessage_publish_key_and_record_witness :
    ∃ notification, (env0 true true).decode msg0.value = some notification ∧
      "n1" = notification.id ∧ r0.notificationID = notification.id ∧
      (env0 true true).marshal r0 = some "n1:SENT" ∧
      Call.saveResult r0 true ∈ (processMessage (env0 true true) msg0).1 :=
  processMessage_publish_key_and_record (env0 true true) msg0 "n1" "n1:SENT" r0 true
    (by decide)

/-- Helper: for a successfully decoded message the trace contains the save
of the constructed `DeliveryResult` and exactly one save call in total,
whatever the save/marshal/publish outcomes. -/
theorem processMessage_one_save (env : ProcEnv) (message : KafkaMessage)
    (n : Notification) (hdec : env.decode message.value = some n) :
    ∃ ok, Call.saveResult (mkDeliveryResult env n) ok ∈ (processMessage env message).1 ∧
      (processMessage env message).1.countP Call.isSave = 1 := by
  by_cases hsave : env.saveOk
  · rcases hmar : env.marshal (mkDeliveryResult env n) with _ | bytes
    · have hpm : processMessage env message =
          ([Call.saveResult (mkDeliveryResult env n) true], true) := by
        unfold processMessage
        rw [hdec]
        simp [hsave, hmar]
      exact ⟨true, by rw [hpm]; exact List.mem_cons_self _ _, by rw [hpm]; rfl⟩
    · by_cases hpok : env.publishOk
      · have hpm : processMessage env message =
            ([Call.saveResult (mkDeliveryResult env n) true,
              Call.writeMessage n.id bytes (mkDeliveryResult env n) true], false) := by
          unfold processMessage
          rw [hdec]
          simp [hsave, hmar, hpok]
        exact ⟨true, by rw [hpm]; exact List.mem_cons_self _ _, by rw [hpm]; rfl⟩
      · have hpm : processMessage env message =
            ([Call.saveResult (mkDeliveryResult env n) true,
              Call.writeMessage n.id bytes (mkDeliveryResult env n) false], true) := by
          unfold processMessage
          rw [hdec]
          simp [hsave, hmar, hpok]
        exact ⟨true, by rw [hpm]; exact List.mem_cons_self _ _, by rw [hpm]; rfl⟩
  · have hpm : processMessage env message =
        ([Call.saveResult (mkDeliveryResult env n) false], true) := by
      unfold processMessage
      rw [hdec]
      simp [hsave]
    exact ⟨false, by rw [hpm]; exact List.mem_cons_self _ _, by rw [hpm]; rfl⟩

/-- C5: for every successfully deserialized Notification, exactly one
`DeliveryResult` is produced per processing attempt (one save call, whose
record the publish — when reached — reuses); its status is SENT or
FAILED; its `errorMessage` is non-empty exactly when the status is FAILED
and then equals the policy's failure message; a policy with failure rate
1.0 always yields FAILED and one with 0.0 always yields SENT with empty
error. -/
theorem processMessage_outcome_wellformed (env : ProcEnv) (message : KafkaMessage)
    (notification : Notification) (config : DeliveryConfig) (rDelay : Nat) (rFail : ℚ)
    (out : String × Int × Option String)
    (hdec : env.decode message.value = some notification)
    (hsim : simulateDelivery notification config rDelay rFail = some out)
    (henv : env.simulator notification = out)
    (hmsg : config.errorMessage ≠ "")
    (hr0 : 0 ≤ rFail) (hr1 : rFail < 1) :
    ∃ r ok, Call.saveResult r ok ∈ (processMessage env message).1 ∧
      (processMessage env message).1.countP Call.isSave = 1 ∧
      (r.status = "SENT" ∨ r.status = "FAILED") ∧
      (r.errorMessage ≠ "" ↔ r.status = "FAILED") ∧
      (r.status = "FAILED" → r.errorMessage = config.errorMessage) ∧
      (config.failureRate = 1 → r.status = "FAILED") ∧
      (config.failureRate = 0 → r.status = "SENT" ∧ r.errorMessage = "") := by
  obtain ⟨okk, hmem, hcount⟩ := processMessage_one_save env message notification hdec
  have hst : (mkDeliveryResult env notification).status = out.1 := by
    unfold mkDeliveryResult
    rw [henv]
  have herr : (mkDeliveryResult env notification).errorMessage =
      (match out.2.2 with | some e => e | none => "") := by
    unfold mkDeliveryResult
    rw [henv]
  unfold simulateDelivery at hsim
  rcases hR : randIntn (config.maxDelayMs - config.minDelayMs) rDelay with _ | d <;>
    rw [hR] at hsim
  · cases hsim
  · dsimp only at hsim
    by_cases hf : rFail < config.failureRate
    · rw [if_pos hf] at hsim
      have hout := Option.some.inj hsim
      rw [← hout] at hst herr
      refine ⟨mkDeliveryResult env notification, okk, hmem, hcount,
        Or.inr hst, ?_, fun _ => herr, fun _ => hst, ?_⟩
      · rw [hst, herr]
        exact iff_of_true hmsg rfl
      · intro h0
        rw [h0] at hf
        exact absurd hr0 (not_le.mpr hf)
    · rw [if_neg hf] at hsim
      have hout := Option.some.inj hsim
      rw [← hout] at hst herr
      refine ⟨mkDeliveryResult env notification, okk, hmem, hcount,
        Or.inl hst, ?_, ?_, ?_, fun _ => ⟨hst, herr⟩⟩
      · rw [hst, herr]
        refine iff_of_false (by simp) ?_
        intro h
        exact absurd h (by simp)
      · intro h
        rw [hst] at h
        exact absurd h (by simp)
      · intro h1
        rw [h1] at hf
        exact absurd hr1 hf

/-- Witness for C5 at the email policy, delay sample 0, failure sample 1/2
(a SENT run), in an environment where save and publish succeed. -/
theorem processMessage_outcome_wellformed_witness :
    ∃ r ok, Call.saveResult r ok ∈ (processMessage env1 msg0).1 ∧
      (processMessage env1 msg0).1.countP Call.isSave = 1 ∧
      (r.status = "SENT" ∨ r.status = "FAILED") ∧
      (r.errorMessage ≠ "" ↔ r.status = "FAILED") ∧
      (r.status = "FAILED" → r.errorMessage = emailConfig.errorMessage) ∧
      (emailConfig.failureRate = 1 → r.status = "FAILED") ∧
      (emailConfig.failureRate = 0 → r.status = "SENT" ∧ r.errorMessage = "") :=
  processMessage_outcome_wellformed env1 msg0 n0 emailConfig 0 rateHalf
    ("SENT", 50, none) (by decide) (by decide) rfl (by decide) (by decide) (by decide)

/-- C2, counterexample: under the email policy (min 50, max 200) no sample
of the bounded draw ever yields the inclusive upper endpoint 200 — the
samples `[0, 150)` below cover one full period of `rand.Intn(150)`, whose
result is the sample's residue — even though 200 lies inside the claimed
inclusive interval; so the drawn delay is not uniformly distributed over
the inclusive interval `[min_latency_ms, max_latency_ms]`. -/
theorem simulateDelivery_max_latency_never_drawn_cex :
    ((List.range 150).all fun r => decide (delayOf emailConfig r ≠ some 200)) = true ∧
    emailConfig.minDelayMs ≤ 200 ∧ (200 : Int) ≤ emailConfig.maxDelayMs := by
  decide

/-- C2, amended: for a policy with `min_latency_ms < max_latency_ms`, the
recorded latency (the drawn delay, which the model equates with the
measured duration) always lies in the half-open interval
`[min_latency_ms, max_latency_ms)` — hence within the inclusive interval,
but never equal to `max_latency_ms` — and the delay is uniformly
distributed over that half-open interval: within one period of the
sampler, each value of `[min, max)` is drawn by exactly one sample. -/
theorem simulateDelivery_latency_bounds (notification : Notification)
    (config : DeliveryConfig) (rDelay : Nat) (rFail : ℚ)
    (hrange : config.minDelayMs < config.maxDelayMs) :
    ∃ status dt e, simulateDelivery notification config rDelay rFail = some (status, dt, e) ∧
      delayOf config rDelay = some dt ∧
      config.minDelayMs ≤ dt ∧ dt < config.maxDelayMs ∧
      ∀ v : Int, config.minDelayMs ≤ v → v < config.maxDelayMs →
        ((Finset.range (config.maxDelayMs - config.minDelayMs).toNat).filter
          (fun r => delayOf config r = some v)).card = 1 := by
  have hnle : ¬ (config.maxDelayMs - config.minDelayMs ≤ 0) := by omega
  have hrand : randIntn (config.maxDelayMs - config.minDelayMs) rDelay =
      some ((rDelay % (config.maxDelayMs - config.minDelayMs).toNat : Nat) : Int) := by
    unfold randIntn
    rw [if_neg hnle]
  have hmodlt : rDelay % (config.maxDelayMs - config.minDelayMs).toNat <
      (config.maxDelayMs - config.minDelayMs).toNat :=
    Nat.mod_lt _ (by omega)
  have hlb : config.minDelayMs ≤ config.minDelayMs +
      ((rDelay % (config.maxDelayMs - config.minDelayMs).toNat : Nat) : Int) := by
    omega
  have hub : config.minDelayMs +
      ((rDelay % (config.maxDelayMs - config.minDelayMs).toNat : Nat) : Int) <
      config.maxDelayMs := by
    omega
  have hdel : delayOf config rDelay = some (config.minDelayMs +
      ((rDelay % (config.maxDelayMs - config.minDelayMs).toNat : Nat) : Int)) := by
    unfold delayOf
    rw [hrand]
    rfl
  have huni : ∀ v : Int, config.minDelayMs ≤ v → v < config.maxDelayMs →
      ((Finset.range (config.maxDelayMs - config.minDelayMs).toNat).filter
        (fun r => delayOf config r = some v)).card = 1 := by
    intro v hv1 hv2
    have hset : (Finset.range (config.maxDelayMs - config.minDelayMs).toNat).filter
        (fun r => delayOf config r = some v) = {(v - config.minDelayMs).toNat} := by
      ext r
      simp only [Finset.mem_filter, Finset.mem_range, Finset.mem_singleton]
      constructor
      · rintro ⟨hr, hd⟩
        unfold delayOf randIntn at hd
        rw [if_neg hnle] at hd
        simp only [Option.map_some'] at hd
        have heq := Option.some.inj hd
        have hrmod : r % (config.maxDelayMs - config.minDelayMs).toNat = r :=
          Nat.mod_eq_of_lt hr
        rw [hrmod] at heq
        omega
      · rintro rfl
        have hlt : (v - config.minDelayMs).toNat <
            (config.maxDelayMs - config.minDelayMs).toNat := by
          omega
        refine ⟨hlt, ?_⟩
        unfold delayOf randIntn
        rw [if_neg hnle]
        simp only [Option.map_some']
        have hm : (v - config.minDelayMs).toNat %
            (config.maxDelayMs - config.minDelayMs).toNat =
            (v - config.minDelayMs).toNat := Nat.mod_eq_of_lt hlt
        rw [hm]
        congr 1
        omega
    rw [hset, Finset.card_singleton]
  unfold simulateDelivery
  rw [hrand]
  dsimp only
  by_cases hf : rFail < config.failureRate
  · rw [if_pos hf]
    exact ⟨"FAILED", _, some config.errorMessage, rfl, hdel, hlb, hub, huni⟩
  · rw [if_neg hf]
    exact ⟨"SENT", _, none, rfl, hdel, hlb, hub, huni⟩

/-- Witness for C2's amended theorem at the email policy and sample 7. -/
theorem simulateDelivery_latency_bounds_witness :
    ∃ status dt e, simulateDelivery n0 emailConfig 7 rateHalf = some (status, dt, e) ∧
      delayOf emailConfig 7 = some dt ∧
      emailConfig.minDelayMs ≤ dt ∧ dt < emailConfig.maxDelayMs ∧
      ∀ v : Int, emailConfig.minDelayMs ≤ v → v < emailConfig.maxDelayMs →
        ((Finset.range (emailConfig.maxDelayMs - emailConfig.minDelayMs).toNat).filter
          (fun r => delayOf emailConfig r = some v)).card = 1 :=
  simulateDelivery_latency_bounds n0 emailConfig 7 rateHalf (by decide)

end NotificationSystem
